import Mathlib

/-!
Verification of the 2D reprojection core of a stereo deepfake-detection
pipeline (`2D Reprojection/reprojector.py`).

The numerics of the source (numpy float64 arithmetic over real-valued
matrices and points) are embedded as exact rationals, matching the
spec's real-valued data model.  Matrices are raw `List (List ℚ)` arrays,
since the loader performs no shape validation; points are triples.
Python exceptions become an `Except` error type; the filesystem seen by
`np.load` is a partial map from paths to artifacts.
-/

namespace Reproj

/-- A numpy array of rank 2, as stored in a calibration artifact.
No shape is imposed: the loader never validates shapes. -/
abbrev Mat : Type := List (List ℚ)

/-- A 3D point `(X, Y, Z)`. -/
abbrev Point3D : Type := ℚ × ℚ × ℚ

/-- A 2D pixel point `(x, y)`. -/
abbrev Point2D : Type := ℚ × ℚ

/-- The contents of a `.npz` artifact: named rank-2 arrays. -/
abbrev NpzFile : Type := List (String × Mat)

/-- The filesystem visible to the loader: maps a path to the artifact
stored there, or `none` when the path does not exist. -/
abbrev FileSystem : Type := String → Option NpzFile

/-- The exception taxonomy of `reprojector.py`:
`FileNotFoundError` raised by `_load_calibration` on a missing path,
`KeyError` raised by numpy on a missing array name, and
`ValueError` raised by `project_3d_to_2d` on a bad camera identifier. -/
inductive PyError : Type where
  | fileNotFound (msg : String)
  | keyError (key : String)
  | valueError (msg : String)
deriving DecidableEq, Repr

/-- Dot product of two rows, as numpy matrix multiplication computes
each entry (rows here always have matching length 4 in every use the
source makes of it). -/
def dotQ (xs ys : List ℚ) : ℚ :=
  ((xs.zip ys).map fun p => p.1 * p.2).sum

/-- `P @ v` for a rank-2 array `P` and a vector `v`: one dot product
per row of `P`. -/
def matVec (P : Mat) (v : List ℚ) : List ℚ :=
  P.map fun row => dotQ row v

/-- The message built by `_load_calibration` when the calibration file
is missing (apostrophes and braces of the Python f-string rendered
directly into the concatenation). -/
def notFoundMsg (calibration_path : String) : String :=
  "Calibration file not found: " ++ calibration_path ++
    "\nRun stereo_calibrate.py first to generate calibration data."

/-- `StereoReprojector._load_calibration`: checks `os.path.exists`,
raising `FileNotFoundError` with a remediation message when the path is
missing; otherwise loads the artifact and returns the dict
with entries `data['P1']` and `data['P2']` (numpy raises `KeyError`
when a name is absent — the first missing name raised, `P1` before
`P2`, as Python evaluates the dict literal).  No shape check occurs. -/
def _load_calibration (fs : FileSystem) (calibration_path : String) :
    Except PyError (Mat × Mat) :=
  match fs calibration_path with
  | none => .error (.fileNotFound (notFoundMsg calibration_path))
  | some data =>
    match data.lookup "P1" with
    | none => .error (.keyError "P1")
    | some p1 =>
      match data.lookup "P2" with
      | none => .error (.keyError "P2")
      | some p2 => .ok (p1, p2)

/-- The engine state after `__init__`: the two projection matrices
extracted from the loaded calibration dict. -/
structure StereoReprojector : Type where
  P1 : Mat
  P2 : Mat
deriving DecidableEq, Repr

/-- `StereoReprojector.__init__`: loads calibration from the path and
stores `P1` and `P2`; fails exactly as `_load_calibration` fails. -/
def StereoReprojector.init (fs : FileSystem) (calibration_path : String) :
    Except PyError StereoReprojector :=
  (_load_calibration fs calibration_path).map fun c => ⟨c.1, c.2⟩

/-- The per-point body of `project_3d_to_2d`: append 1 to form the
homogeneous 4-vector, multiply by `P`, and divide the first two
homogeneous components by the third.  The source performs this on the
whole batch at once (`(P @ points.T).T` then a columnwise division);
per point the arithmetic is identical.  The division is unguarded in
the source ( `points_2d = projected[:, :2] / projected[:, 2:3]` );
in this exact-rational embedding a zero divisor yields the junk value
0 where numpy would silently yield inf or NaN. -/
def projectPoint (P : Mat) (p : Point3D) : Point2D :=
  let hom : List ℚ := [p.1, p.2.1, p.2.2, 1]
  let ph : List ℚ := matVec P hom
  (ph.getD 0 0 / ph.getD 2 0, ph.getD 1 0 / ph.getD 2 0)

/-- `StereoReprojector.project_3d_to_2d`: selects `P1` for `cam1`,
`P2` for `cam2` (the Python default argument is `camera='cam1'`),
raises `ValueError` for any other identifier, and otherwise maps the
projection over the batch in order. -/
def StereoReprojector.project_3d_to_2d (self : StereoReprojector)
    (points_3d : List Point3D) (camera : String := "cam1") :
    Except PyError (List Point2D) :=
  if camera = "cam1" then
    .ok (points_3d.map (projectPoint self.P1))
  else if camera = "cam2" then
    .ok (points_3d.map (projectPoint self.P2))
  else
    .error (.valueError ("camera must be cam1 or cam2, got " ++ camera))

/-- `StereoReprojector.reproject_to_both_cameras`: one `project` call
per camera on the same input, results paired. -/
def StereoReprojector.reproject_to_both_cameras (self : StereoReprojector)
    (points_3d : List Point3D) :
    Except PyError (List Point2D × List Point2D) := do
  let reprojected_cam1 ← self.project_3d_to_2d points_3d "cam1"
  let reprojected_cam2 ← self.project_3d_to_2d points_3d "cam2"
  return (reprojected_cam1, reprojected_cam2)

/-- The homogeneous divisors `w_h` an input batch produces under a
matrix `P` — one per processed row; empty batch, no divisors. -/
def divisorsOf (P : Mat) (points_3d : List Point3D) : List ℚ :=
  points_3d.map fun p => (matVec P [p.1, p.2.1, p.2.2, 1]).getD 2 0

/-- Unfolding `projectPoint` on an explicit 3x4 matrix: the output is
exactly the spec formula `(x_h / w_h, y_h / w_h)` with
`[x_h, y_h, w_h] = P · [X, Y, Z, 1]` spelled out entrywise. -/
theorem projectPoint_entries
    (p00 p01 p02 p03 p10 p11 p12 p13 p20 p21 p22 p23 X Y Z : ℚ) :
    projectPoint [[p00,p01,p02,p03],[p10,p11,p12,p13],[p20,p21,p22,p23]] (X, Y, Z) =
      ((p00*X + p01*Y + p02*Z + p03) / (p20*X + p21*Y + p22*Z + p23),
       (p10*X + p11*Y + p12*Z + p13) / (p20*X + p21*Y + p22*Z + p23)) := by
  simp [projectPoint, matVec, dotQ]
  constructor <;> ring_nf

/-- C1: for every batch of 3D points and every recognized camera
identifier (`cam1` selecting `P1`, `cam2` selecting `P2`, the selected
matrix being 3x4), `project_3d_to_2d` succeeds with a sequence of the
same length as the input, whose entry at each index `i` equals
`(x_h / w_h, y_h / w_h)` where `[x_h, y_h, w_h] = P · [X_i, Y_i, Z_i, 1]`
for the input point at index `i`. -/
theorem C1_project_formula (st : StereoReprojector) (pts : List Point3D) (camera : String)
    (p00 p01 p02 p03 p10 p11 p12 p13 p20 p21 p22 p23 : ℚ)
    (hsel : camera = "cam1" ∧ st.P1 = [[p00,p01,p02,p03],[p10,p11,p12,p13],[p20,p21,p22,p23]] ∨
            camera = "cam2" ∧ st.P2 = [[p00,p01,p02,p03],[p10,p11,p12,p13],[p20,p21,p22,p23]]) :
    ∃ res, st.project_3d_to_2d pts camera = .ok res ∧ res.length = pts.length ∧
      ∀ (i : ℕ) (X Y Z : ℚ), pts[i]? = some (X, Y, Z) →
        res[i]? = some ((p00*X + p01*Y + p02*Z + p03) / (p20*X + p21*Y + p22*Z + p23),
                        (p10*X + p11*Y + p12*Z + p13) / (p20*X + p21*Y + p22*Z + p23)) := by
  rcases hsel with ⟨hc, hP⟩ | ⟨hc, hP⟩ <;> subst hc
  · refine ⟨pts.map (projectPoint st.P1), rfl, by simp, ?_⟩
    intro i X Y Z h
    rw [List.getElem?_map, h, hP]
    simp [projectPoint_entries]
  · refine ⟨pts.map (projectPoint st.P2), rfl, by simp, ?_⟩
    intro i X Y Z h
    rw [List.getElem?_map, h, hP]
    simp [projectPoint_entries]

/-- C1 witness: the formula theorem instantiated at the identity-like
matrix and the single point `(1, 2, 4)` on `cam1`. -/
theorem C1_project_formula_witness :
    ∃ res, (StereoReprojector.mk [[1,0,0,0],[0,1,0,0],[0,0,1,0]]
        [[0,0,0,0],[0,0,0,0],[0,0,0,0]]).project_3d_to_2d [((1:ℚ), 2, 4)] "cam1" = .ok res ∧
      res.length = [((1:ℚ), 2, 4)].length ∧
      ∀ (i : ℕ) (X Y Z : ℚ), [((1:ℚ), 2, 4)][i]? = some (X, Y, Z) →
        res[i]? = some (((1:ℚ)*X + 0*Y + 0*Z + 0) / (0*X + 0*Y + 1*Z + 0),
                        ((0:ℚ)*X + 1*Y + 0*Z + 0) / (0*X + 0*Y + 1*Z + 0)) :=
  C1_project_formula _ _ _ 1 0 0 0 0 1 0 0 0 0 1 0 (Or.inl ⟨rfl, rfl⟩)

/-- C2: the degenerate case `w_h = 0` is NOT signaled by the code.  At
the failing input — matrix rows `[[1,0,0,0],[0,1,0,0],[0,0,1,0]]` and
point `(1, 2, 0)` — the homogeneous divisor is exactly `0`, yet
`project_3d_to_2d` returns `.ok` rather than any error: the division
in the source is unguarded (numpy silently yields inf or NaN there,
emitting at most a runtime warning; this embedding's rational division
by zero yields the junk value `0` in the payload).  This contradicts
the spec requirement that a zero divisor be detectable by the caller. -/
theorem C2_degenerate_division_unsignaled :
    divisorsOf [[1,0,0,0],[0,1,0,0],[0,0,1,0]] [((1:ℚ), 2, 0)] = [0] ∧
    (StereoReprojector.mk [[1,0,0,0],[0,1,0,0],[0,0,1,0]]
        [[1,0,0,0],[0,1,0,0],[0,0,1,0]]).project_3d_to_2d [((1:ℚ), 2, 0)] "cam1" =
      .ok [(0, 0)] := by
  constructor
  · simp [divisorsOf, matVec, dotQ]
  · simp [StereoReprojector.project_3d_to_2d, projectPoint, matVec, dotQ]

/-- C3 counterexample: an artifact whose `P1` and `P2` are 2x2 (not
3 rows by 4 columns) loads successfully — the claim that loading never
succeeds with a mis-shaped matrix is false: `_load_calibration`
performs no shape validation at all. -/
theorem C3_counterexample :
    _load_calibration (fun _ => some [("P1", [[1,2],[3,4]]), ("P2", [[5,6],[7,8]])])
        "calib.npz" = .ok ([[1,2],[3,4]], [[5,6],[7,8]]) ∧
    ([[(1:ℚ),2],[3,4]] : Mat).length ≠ 3 :=
  ⟨rfl, by decide⟩

/-- C3 amended: when the artifact exists, loading succeeds returning
`(p1, p2)` exactly when the artifact contains entries named `P1` and
`P2` with those values — a missing entry fails (with a key error), but
the shapes of the matrices are never validated, so mis-shaped matrices
load successfully. -/
theorem C3_load_validates_keys_not_shapes (fs : FileSystem) (path : String)
    (data : NpzFile) (p1 p2 : Mat) (hfs : fs path = some data) :
    _load_calibration fs path = .ok (p1, p2) ↔
      data.lookup "P1" = some p1 ∧ data.lookup "P2" = some p2 := by
  unfold _load_calibration
  rw [hfs]
  cases h1 : data.lookup "P1" <;> cases h2 : data.lookup "P2" <;> simp [h1, h2]

/-- C3 witness: a concrete artifact holding 1x1 matrices under `P1`
and `P2` loads successfully, by the amended characterization. -/
theorem C3_no_shape_check_witness :
    _load_calibration (fun _ => some [("P1", [[(1:ℚ)]]), ("P2", [[2]])])
        "stereo_calibration.npz" = .ok ([[1]], [[2]]) :=
  (C3_load_validates_keys_not_shapes (fun _ => some [("P1", [[(1:ℚ)]]), ("P2", [[2]])])
    "stereo_calibration.npz" [("P1", [[1]]), ("P2", [[2]])] [[1]] [[2]] rfl).mpr ⟨rfl, rfl⟩

/-- C4: for every camera identifier other than `cam1` and `cam2` and
every batch (empty or not), `project_3d_to_2d` fails with the
`ValueError` (the spec's `InvalidArgumentError`); the function is pure,
so the engine state and the batch are untouched, and the result is the
error alone. -/
theorem C4_invalid_camera (st : StereoReprojector) (pts : List Point3D) (camera : String)
    (h1 : camera ≠ "cam1") (h2 : camera ≠ "cam2") :
    st.project_3d_to_2d pts camera =
      .error (.valueError ("camera must be cam1 or cam2, got " ++ camera)) := by
  simp [StereoReprojector.project_3d_to_2d, h1, h2]

/-- C4 witness: `cam3` on an empty batch is rejected. -/
theorem C4_invalid_camera_witness :
    (StereoReprojector.mk [] []).project_3d_to_2d [] "cam3" =
      .error (.valueError ("camera must be cam1 or cam2, got " ++ "cam3")) :=
  C4_invalid_camera _ _ _ (by decide) (by decide)

/-- C5: for every path absent from the filesystem, `_load_calibration`
fails, deterministically, with exactly the `FileNotFoundError` (and so
with no other error), and its message contains the guidance
`Run stereo_calibrate.py first` directing the user to calibrate. -/
theorem C5_missing_calibration (fs : FileSystem) (path : String) (h : fs path = none) :
    _load_calibration fs path = .error (.fileNotFound (notFoundMsg path)) ∧
    ∃ pre post, notFoundMsg path = pre ++ "Run stereo_calibrate.py first" ++ post := by
  constructor
  · unfold _load_calibration
    rw [h]
  · refine ⟨"Calibration file not found: " ++ path ++ "\n",
      " to generate calibration data.", ?_⟩
    have hlit : ("\nRun stereo_calibrate.py first to generate calibration data." : String) =
        "\n" ++ ("Run stereo_calibrate.py first" ++ " to generate calibration data.") := by
      decide
    simp [notFoundMsg, hlit, String.append_assoc]

/-- C5 witness: the empty filesystem at a concrete path. -/
theorem C5_missing_calibration_witness :
    _load_calibration (fun _ => none) "calibration_data.npz" =
        .error (.fileNotFound (notFoundMsg "calibration_data.npz")) ∧
    ∃ pre post,
      notFoundMsg "calibration_data.npz" = pre ++ "Run stereo_calibrate.py first" ++ post :=
  C5_missing_calibration (fun _ => none) "calibration_data.npz" rfl

/-- C6: `reproject_to_both_cameras` returns exactly the pair of the
two independent `project_3d_to_2d` calls on the same input, one per
camera, and both outputs have the length of the input batch. -/
theorem C6_project_both (st : StereoReprojector) (pts : List Point3D) :
    ∃ r1 r2, st.project_3d_to_2d pts "cam1" = .ok r1 ∧
      st.project_3d_to_2d pts "cam2" = .ok r2 ∧
      st.reproject_to_both_cameras pts = .ok (r1, r2) ∧
      r1.length = pts.length ∧ r2.length = pts.length :=
  ⟨pts.map (projectPoint st.P1), pts.map (projectPoint st.P2),
    rfl, rfl, rfl, by simp, by simp⟩

/-- C7: the empty batch projects to the empty sequence under both
recognized camera identifiers, for every engine state; and the list of
homogeneous divisors produced is empty — no division is performed, so
no division by zero can occur on an empty batch. -/
theorem C7_empty_batch (st : StereoReprojector) :
    st.project_3d_to_2d [] "cam1" = .ok [] ∧
    st.project_3d_to_2d [] "cam2" = .ok [] ∧
    divisorsOf st.P1 [] = [] ∧ divisorsOf st.P2 [] = [] :=
  ⟨rfl, rfl, rfl, rfl⟩

/-- C8: with `P1 = [[100,0,50,0],[0,100,50,0],[0,0,1,0]]` and the
single point `(0.1, 0, 0.6)`, the homogeneous image is
`[40, 30, 0.6]` and projection yields `(200/3, 50)`, which agrees with
`(66.67, 50.0)` to 2 decimal places (`|200/3 - 66.67| < 0.005`). -/
theorem C8_nontrivial_scenario :
    matVec [[100,0,50,0],[0,100,50,0],[0,0,1,0]] [1/10, 0, 3/5, 1] = [40, 30, 3/5] ∧
    (StereoReprojector.mk [[100,0,50,0],[0,100,50,0],[0,0,1,0]]
        [[100,0,50,0],[0,100,50,0],[0,0,1,0]]).project_3d_to_2d
      [((1:ℚ)/10, 0, 3/5)] "cam1" = .ok [(200/3, 50)] ∧
    |200/3 - (6667/100 : ℚ)| < 1/100 / 2 := by
  refine ⟨?_, ?_, ?_⟩
  · norm_num [matVec, dotQ]
  · simp [StereoReprojector.project_3d_to_2d, projectPoint, matVec, dotQ]
    norm_num
  · rw [abs_sub_lt_iff]
    norm_num

/-- C10: the Python default argument `camera='cam1'` means a call of
`project_3d_to_2d` without an explicit camera is the `cam1` call. -/
theorem C10_default_camera (st : StereoReprojector) (pts : List Point3D) :
    st.project_3d_to_2d pts = st.project_3d_to_2d pts "cam1" :=
  rfl

end Reproj
